import Mathlib

/-!
Shallow embedding of `src/BioRanges/lightweight.py` (the repository's only
source file).  The file is Python 2 code: its `__repr__` methods index the
list returned by `map` (`this_row[j]`), which only works on Python 2.  Two
Python-2 semantic points matter for the embedding and are modelled
explicitly below:

* CPython 2 orders `None` below every other value, so for an integer `s`
  the comparison `s > None` is `True` and `None > e` is `False` (no error).
* Arithmetic between an integer and `None` (`e - None`, `None - w`) raises
  `TypeError`.

A further CPython point that the embedding must respect: an assignment
`self.strand = strand` on a new-style class whose class body defines a
`strand` property with no setter raises `AttributeError` (a property is a
data descriptor and takes precedence over the instance dictionary).  Class
`SeqRange` in the source defines exactly such a read-only `strand`
property, so its `__init__` can never complete for a valid strand.

Errors are modelled with an explicit error type; fallible code returns
`Except PyErr`.  Mutation (`append`) is modelled by explicit state passing.
-/

/-- Python exception kinds raised by the code paths modelled here, each
carrying its message. -/
inductive PyErr where
  | valueError (msg : String)
  | typeError (msg : String)
  | attributeError (msg : String)
  | indexError (msg : String)
deriving Repr, DecidableEq

/-- Module constant `STRAND_OPTIONS = ("+", "-", "*")` (lightweight.py line 21). -/
def STRAND_OPTIONS : List String := ["+", "-", "*"]

/-- Instance state of class `Range` (lightweight.py lines 38-66): attributes
`start`, `end`, `width`, `name` as set at the end of `__init__`.  The Python
attribute `end` is spelled `end_` because `end` is a Lean keyword. -/
structure Range where
  start : Int
  end_ : Int
  width : Int
  name : Option String
deriving Repr, DecidableEq

/-- The arbitrary-key metadata mapping attached to a `SeqRange` (`data`
argument).  Its contents never matter to any modelled behaviour because
`SeqRange.__init__` raises before `self.data = data` runs. -/
abbrev PyData := List (String × String)

/-- Instance state of class `SeqRange` (lightweight.py lines 183-198).  Only
`range` and `seqname` appear: they are the only attributes `__init__`
assigns before it raises (`self.strand = strand` hits the read-only
`strand` property, and `self.data = data` is never reached), so no
`SeqRange` instance ever carries `strand` or `data` attributes. -/
structure SeqRange where
  range : Range
  seqname : String
deriving Repr, DecidableEq

/-- Instance state of class `Ranges` (lightweight.py lines 83-102): the
backing list `self._ranges`. -/
structure Ranges where
  _ranges : List Range
deriving Repr, DecidableEq

/-- Instance state of class `SeqRanges` (lightweight.py lines 252-281):
the backing list `self._ranges` plus the `seqlengths` dictionary, the
latter modelled as an association list with dictionary lookup/update
semantics. -/
structure SeqRanges where
  _ranges : List SeqRange
  seqlengths : List (String × Int)
deriving Repr, DecidableEq

/-- A runtime Python value, as far as the dynamically-typed arguments of
`Range.overlaps` and `SeqRanges.append` need to distinguish: both dispatch
on `x.__class__.__name__` only. -/
inductive PyObj where
  | vRange (r : Range)
  | vSeqRange (sr : SeqRange)
  | vSeqRanges (srs : SeqRanges)
  | vList (xs : List PyObj)
  | vStr (s : String)

/-- Python `x.__class__.__name__` for the modelled values. -/
def PyObj.className : PyObj → String
  | .vRange _ => "Range"
  | .vSeqRange _ => "SeqRange"
  | .vSeqRanges _ => "SeqRanges"
  | .vList _ => "list"
  | .vStr _ => "str"

/-- CPython 2 `a > b` where either side may be `None`: `None` is smaller
than anything, so `int > None` is true and `None > x` is false. -/
def py2_gt_opt : Option Int → Option Int → Bool
  | some x, some y => decide (x > y)
  | some _, none => true
  | none, _ => false

/-- Python `width is not None and width < 0`. -/
def py2_neg_width : Option Int → Bool
  | some w => decide (w < 0)
  | none => false

/-- Python `b - a` where either operand may be `None`: integer subtraction
when both are integers, `TypeError` otherwise. -/
def py2_sub_opt (b a : Option Int) : Except PyErr Int :=
  match b, a with
  | some x, some y => .ok (x - y)
  | _, _ => .error (.typeError "unsupported operand type for subtraction with NoneType")

/-- Python `xs[i]` where `xs` may be `None`: indexing `None` raises
`TypeError`, an in-range index returns the element. -/
def pyIndex {α : Type} (xs : Option (List α)) (i : Nat) : Except PyErr α :=
  match xs with
  | none => .error (.typeError "NoneType object is unsubscriptable")
  | some l =>
    match l.get? i with
    | some v => .ok v
    | none => .error (.indexError "list index out of range")

/-- Python `xs[i] if xs is not None else None` (the guarded indexing used
for the optional attribute lists in the bulk constructors). -/
def pyIndexOpt {α : Type} (xs : Option (List α)) (i : Nat) : Except PyErr (Option α) :=
  match xs with
  | none => .ok none
  | some l =>
    match l.get? i with
    | some v => .ok (some v)
    | none => .error (.indexError "list index out of range")

/-- Left-to-right effectful map, the shape of the `for i in range(arg_len)`
construction loops (each iteration either appends one element or raises). -/
def exceptMapM {α β : Type} (f : α → Except PyErr β) : List α → Except PyErr (List β)
  | [] => .ok []
  | a :: rest => do
    let b ← f a
    let bs ← exceptMapM f rest
    .ok (b :: bs)

/-- Dictionary lookup `d[k]` / `d.get(k)` on the association-list model:
the value of the first entry whose key is `k`, if any. -/
def dictGet (d : List (String × Int)) (k : String) : Option Int :=
  (d.find? (fun kv => kv.1 == k)).map (fun kv => kv.2)

/-- Python `d.update(other)` (as used on `seqlengths`): afterwards every
key of `other` maps to `other`'s value and every other key of `d` keeps
its value.  On the association-list model this is realised by dropping the
entries of `d` that `other` overrides and appending `other`. -/
def dictUpdate (d other : List (String × Int)) : List (String × Int) :=
  d.filter (fun kv => !(other.any (fun kv2 => kv2.1 == kv.1))) ++ other

/-- Function `verify_arg_length(msg, args)` (lightweight.py lines 27-36).
Only the length of each non-`None` argument list is ever inspected, so the
embedding receives those lengths directly (`none` standing for an argument
that `is None`).  `set([...])` is modelled by `dedup`; `list(arg_lens)[0]`
on the empty set raises `IndexError`. -/
def verify_arg_length (msg : String) (args : List (Option Nat)) : Except PyErr Nat :=
  let arg_lens := (args.filterMap id).dedup
  if arg_lens.length > 1 then .error (.valueError msg)
  else
    match arg_lens with
    | [] => .error (.indexError "list index out of range")
    | n :: _ => .ok n

/-- Constructor `Range.__init__(self, start=None, end=None, width=None,
name=None)` (lightweight.py lines 43-66), under Python 2 semantics:

* `Counter((start, end, width))[None] > 2` rejects only the all-absent case;
* `start > end` with `end is None` is `True` whenever `start` is an
  integer (CPython 2 sorts `None` below everything), so any call giving
  `start` but not `end` takes the `ValueError` branch — the inference
  `end = start + width` below it is unreachable;
* the inference `start = end - width` raises `TypeError` when `end` or
  `width` is also `None`;
* when all three are given no consistency cross-check happens and the
  supplied `width` is stored as-is. -/
def Range.init (start end_ width : Option Int) (name : Option String) :
    Except PyErr Range := do
  if (if start.isNone then 1 else 0) + (if end_.isNone then 1 else 0)
      + (if width.isNone then (1 : Nat) else 0) > 2 then
    throw (.valueError "too few arguments for Range(): need two of [start, end, width]")
  if py2_gt_opt start end_ || py2_neg_width width then
    throw (.valueError "negative range widths not allowed (end > start and width >= 0)")
  let start' ← match start with
    | some s => Except.ok s
    | none => py2_sub_opt end_ width
  let end' ← match end_ with
    | some e => Except.ok e
    | none =>
      match width with
      | some w => Except.ok (start' + w)
      | none => Except.error (.typeError "unsupported operand type for addition with NoneType")
  let width' ← match width with
    | some w => Except.ok w
    | none => Except.ok (end' - start')
  return { start := start', end_ := end', width := width', name := name }

/-- Method `Range.overlaps(self, other)` (lightweight.py lines 73-81):
raises `ValueError` unless `other.__class__.__name__ == "Range"`, then
returns `other.start <= self.end and self.start <= other.end`. -/
def Range.overlaps (self : Range) (other : PyObj) : Except PyErr Bool :=
  match other with
  | .vRange o => .ok (decide (o.start ≤ self.end_ ∧ self.start ≤ o.end_))
  | _ => .error (.valueError "overlaps() method requires another Range object")

/-- Constructor `Ranges.__init__(self, starts=None, ends=None, widths=None,
names=None)` (lightweight.py lines 88-102): validates the argument list
lengths with `verify_arg_length`, then for each index builds
`Range(starts[i], ends[i], widths_i, names_i)` where only `widths` and
`names` are guarded against being `None` — `starts[i]` and `ends[i]` are
indexed unconditionally. -/
def Ranges.init (starts ends widths : Option (List Int))
    (names : Option (List String)) : Except PyErr Ranges := do
  let arg_len ← verify_arg_length
    "list of starts, ends, widths, and names must be of the same length"
    [starts.map List.length, ends.map List.length,
     widths.map List.length, names.map List.length]
  let rs ← exceptMapM (fun i => do
      let widths_i ← pyIndexOpt widths i
      let names_i ← pyIndexOpt names i
      let starts_i ← pyIndex starts i
      let ends_i ← pyIndex ends i
      Range.init (some starts_i) (some ends_i) widths_i names_i)
    (List.range arg_len)
  return { _ranges := rs }

/-- Property `Ranges.start` (lightweight.py lines 153-158):
`[r.start for r in self._ranges]`. -/
def Ranges.start (self : Ranges) : List Int :=
  self._ranges.map Range.start

/-- Property `Ranges.end` (lightweight.py lines 160-165):
`[r.end for r in self._ranges]`. -/
def Ranges.end_ (self : Ranges) : List Int :=
  self._ranges.map Range.end_

/-- Property `Ranges.width` (lightweight.py lines 167-172):
`[r.width for r in self._ranges]`. -/
def Ranges.width (self : Ranges) : List Int :=
  self._ranges.map Range.width

/-- Method `Ranges.overlaps(self)` (lightweight.py lines 174-180):
unconditionally raises `ValueError` (message verbatim from the source,
including its typo). -/
def Ranges.overlaps (self : Ranges) : Except PyErr Bool :=
  .error (.valueError "lightweight Ranges objects do not the support overlap() method")

/-- Constructor `SeqRange.__init__(self, range, seqname, strand,
data=dict())` (lightweight.py lines 188-198).  Statement by statement:
`self.range = range` and `self.seqname = seqname` are plain attribute
assignments and succeed; `if strand not in STRAND_OPTIONS` raises
`ValueError` for a bad strand; otherwise `self.strand = strand` raises
`AttributeError`, because the class body also defines a `strand` property
(lightweight.py lines 224-229) with no setter, and a settable-less
property is a data descriptor that forbids instance assignment.  Hence no
call ever returns normally and `self.data = data` is dead code (which is
also why the shared mutable default `data=dict()` never becomes
observable). -/
def SeqRange.init (range : Range) (seqname strand : String)
    (data : Option PyData) : Except PyErr SeqRange :=
  if strand ∈ STRAND_OPTIONS then
    .error (.attributeError "cannot set attribute: strand is a read-only property")
  else
    .error (.valueError "strand must be either: +, -, *")

/-- Property `SeqRange.strand` (lightweight.py lines 224-229): returns
`self.range.strand`, but class `Range` defines no attribute `strand`, so
every read raises `AttributeError`. -/
def SeqRange.strand (self : SeqRange) : Except PyErr String :=
  .error (.attributeError "Range object has no attribute strand")

/-- Method `SeqRange.overlaps(self, other)` (lightweight.py lines 205-215):
`if self.seqname != other.seqname or self.strand != other.strand: return
False`.  The `or` short-circuits, so differing seqnames return `False`;
with equal seqnames the read of `self.strand` goes through the broken
`strand` property and raises `AttributeError`.  The delegation
`return self.range.overlaps(other)` on the next line is therefore
unreachable — and would itself raise `ValueError` if it were reached,
because it passes the `SeqRange` `other` (not `other.range`) to
`Range.overlaps`, whose class-name check rejects it. -/
def SeqRange.overlaps (self other : SeqRange) : Except PyErr Bool :=
  if self.seqname ≠ other.seqname then .ok false
  else .error (.attributeError "Range object has no attribute strand")

/-- Constructor `SeqRanges.__init__(self, ranges, strands, seqnames,
seqlengths=dict(), data_list=None)` (lightweight.py lines 259-281):
validates lengths of the non-`None` argument lists, then for each index
builds `SeqRange(rng, strands[i], seqnames[i])` (resp. with
`data_list[i]`).  Note the call sends `strands[i]` into `SeqRange`'s
`seqname` parameter and `seqnames[i]` into its `strand` parameter — the
two are swapped relative to `SeqRange.__init__(self, range, seqname,
strand, data)`.  The source pre-filters `None` arguments before calling
`verify_arg_length`; since that function skips `None` entries itself,
passing the unfiltered length list is equivalent. -/
def SeqRanges.init (ranges : Option (List Range))
    (strands seqnames : Option (List String))
    (seqlengths : List (String × Int))
    (data_list : Option (List PyData)) : Except PyErr SeqRanges := do
  let arg_len ← verify_arg_length
    "list of ranges, strands, seqnames, and data_list must be of the same length"
    [ranges.map List.length, strands.map List.length,
     seqnames.map List.length, data_list.map List.length]
  let srs ← exceptMapM (fun i => do
      let rng ← pyIndex ranges i
      match data_list with
      | some dl => do
        let strands_i ← pyIndex strands i
        let seqnames_i ← pyIndex seqnames i
        let data_i ← pyIndex (some dl) i
        SeqRange.init rng strands_i seqnames_i (some data_i)
      | none => do
        let strands_i ← pyIndex strands i
        let seqnames_i ← pyIndex seqnames i
        SeqRange.init rng strands_i seqnames_i none)
    (List.range arg_len)
  return { _ranges := srs, seqlengths := seqlengths }

/-- Method `SeqRanges.append(self, other)` (lightweight.py lines 319-337),
with the mutation of `self` modelled by returning the new state.  Dispatch
is on `other.__class__.__name__`: a `SeqRange` is appended; a `SeqRanges`
has its `_ranges` extended onto `self._ranges` and its `seqlengths`
dict-updated into `self.seqlengths`; a `list` is appended element-wise
after checking every element is a `SeqRange`; anything else raises
`ValueError`. -/
def SeqRanges.append (self : SeqRanges) (other : PyObj) : Except PyErr SeqRanges :=
  match other with
  | .vSeqRange sr => .ok { self with _ranges := self._ranges ++ [sr] }
  | .vSeqRanges o =>
    .ok { _ranges := self._ranges ++ o._ranges,
          seqlengths := dictUpdate self.seqlengths o.seqlengths }
  | .vList xs =>
    if xs.all (fun x => x.className == "SeqRange") then
      .ok { self with
            _ranges := self._ranges ++ xs.filterMap (fun x =>
              match x with
              | .vSeqRange sr => some sr
              | _ => none) }
    else
      .error (.valueError "append() method can only handle lists where each element is a SeqRange")
  | _ =>
    .error (.valueError "append() method can only objects of class list, SeqRange, and SeqRanges")

/-- Method `SeqRanges.overlaps(self)` (lightweight.py lines 394-396):
unconditionally raises `ValueError`, same message as `Ranges.overlaps`. -/
def SeqRanges.overlaps (self : SeqRanges) : Except PyErr Bool :=
  .error (.valueError "lightweight Ranges objects do not the support overlap() method")

/-! General-purpose lemmas about the embedding's building blocks. -/

/-- When every element of the list succeeds, the effectful construction
loop succeeds with the pointwise results. -/
theorem exceptMapM_ok {α β : Type} (f : α → Except PyErr β) (g : α → β) :
    ∀ l : List α, (∀ a ∈ l, f a = .ok (g a)) → exceptMapM f l = .ok (l.map g) := by
  intro l
  induction l with
  | nil => intro _; rfl
  | cons a rest ih =>
    intro h
    have ha := h a (List.mem_cons_self a rest)
    have hr := ih fun x hx => h x (List.mem_cons_of_mem a hx)
    simp only [exceptMapM, ha, hr, List.map_cons]
    rfl

/-- In-range list indexing, phrased with the total `getD` accessor. -/
theorem get?_some_getD (l : List Int) (i : Nat) (h : i < l.length) :
    l.get? i = some (l.getD i 0) := by
  simp [List.getElem?_eq_getElem h]

/-- Reading a list back off by positions recovers the list. -/
theorem map_getD_range : ∀ l : List Int, (List.range l.length).map (fun i => l.getD i 0) = l := by
  intro l
  induction l with
  | nil => rfl
  | cons a t ih =>
    rw [List.length_cons, List.range_succ_eq_map, List.map_cons, List.map_map]
    have h2 : ((fun i => (a :: t).getD i 0) ∘ Nat.succ) = (fun i => t.getD i 0) := by
      funext i; rfl
    rw [h2, ih]
    rfl

/-- Positionwise differences of two equal-length lists, read off by
positions, form their `zipWith` difference. -/
theorem map_range_sub (xs : List Int) : ∀ ys : List Int, xs.length = ys.length →
    (List.range xs.length).map (fun i => ys.getD i 0 - xs.getD i 0) =
      List.zipWith (fun e s => e - s) ys xs := by
  induction xs with
  | nil =>
    intro ys h
    cases ys with
    | nil => rfl
    | cons b u => simp at h
  | cons a t ih =>
    intro ys h
    cases ys with
    | nil => simp at h
    | cons b u =>
      rw [List.length_cons, List.range_succ_eq_map, List.map_cons, List.map_map,
        List.zipWith_cons_cons]
      have h2 : ((fun i => (b :: u).getD i 0 - (a :: t).getD i 0) ∘ Nat.succ)
          = (fun i => u.getD i 0 - t.getD i 0) := by funext i; rfl
      have hlen : t.length = u.length := by simpa using h
      rw [h2, ih u hlen]
      rfl

/-- The length validation applied to two present lists of the same length
(and two absent arguments) succeeds with that length. -/
theorem verify_arg_length_two_eq (msg : String) (n : Nat) :
    verify_arg_length msg [some n, some n, none, none] = .ok n := by
  have h2 : (([some n, some n, none, none] : List (Option Nat)).filterMap id).dedup = [n] := by
    show ([n, n] : List Nat).dedup = [n]
    rw [List.dedup_cons_of_mem (List.mem_singleton.mpr rfl),
      List.dedup_cons_of_not_mem (List.not_mem_nil n), List.dedup_nil]
  simp [verify_arg_length, h2]

/-- A `Range` built from explicit `start <= end` bounds stores those bounds
and infers `width = end - start`. -/
theorem range_init_start_end (s e : Int) (h : s ≤ e) :
    Range.init (some s) (some e) none none =
      .ok { start := s, end_ := e, width := e - s, name := none } := by
  have hgt : py2_gt_opt (some s) (some e) = false := by
    simp [py2_gt_opt, not_lt.mpr h]
  simp only [Range.init, hgt]
  rfl

/-! Claim theorems. -/

/-- C4: for `Range` values `a` and `b`, `a.overlaps(b)` returns true iff
`b.start <= a.end` and `a.start <= b.end` (closed intervals, so touching
boundaries overlap), and `a.overlaps(x)` raises `ValueError` whenever the
argument is not a `Range`. -/
theorem range_overlaps_spec :
    (∀ a b : Range, Range.overlaps a (PyObj.vRange b) = .ok true ↔
      (b.start ≤ a.end_ ∧ a.start ≤ b.end_)) ∧
    (∀ (a : Range) (x : PyObj), PyObj.className x ≠ "Range" →
      Range.overlaps a x =
        .error (.valueError "overlaps() method requires another Range object")) := by
  constructor
  · intro a b
    constructor
    · intro h
      have h2 : decide (b.start ≤ a.end_ ∧ a.start ≤ b.end_) = true := by
        injection h
      exact of_decide_eq_true h2
    · intro h
      show Except.ok (decide (b.start ≤ a.end_ ∧ a.start ≤ b.end_)) = Except.ok true
      rw [decide_eq_true h]
  · intro a x h
    cases x with
    | vRange r => exact absurd rfl h
    | vSeqRange sr => rfl
    | vSeqRanges srs => rfl
    | vList xs => rfl
    | vStr s => rfl

/-- Witness for C4: boundary-touching ranges overlap, and a non-`Range`
argument raises. -/
theorem range_overlaps_spec_witness :
    Range.overlaps ⟨0, 10, 10, none⟩ (PyObj.vRange ⟨10, 20, 10, none⟩) = .ok true ∧
    Range.overlaps ⟨0, 10, 10, none⟩ (PyObj.vStr "hit") =
      .error (.valueError "overlaps() method requires another Range object") :=
  ⟨(range_overlaps_spec.1 ⟨0, 10, 10, none⟩ ⟨10, 20, 10, none⟩).mpr (by decide),
   range_overlaps_spec.2 ⟨0, 10, 10, none⟩ (PyObj.vStr "hit") (by decide)⟩

/-- C9: the no-argument collection-wide `overlaps()` raises the
unsupported-operation `ValueError` on every `Ranges` and every `SeqRanges`,
whatever the contents (the methods never inspect `self`). -/
theorem collection_overlaps_unsupported :
    (∀ rs : Ranges, Ranges.overlaps rs =
      .error (.valueError "lightweight Ranges objects do not the support overlap() method")) ∧
    (∀ ss : SeqRanges, SeqRanges.overlaps ss =
      .error (.valueError "lightweight Ranges objects do not the support overlap() method")) :=
  ⟨fun _ => rfl, fun _ => rfl⟩

/-- C10: constructing `Ranges` (resp. `SeqRanges`) with every attribute
list absent reaches `verify_arg_length` with no non-absent argument, whose
`list(arg_lens)[0]` then raises an unguarded `IndexError` — not the
documented length-mismatch `ValueError`, and not an empty collection. -/
theorem bulk_init_all_absent_index_error :
    Ranges.init none none none none = .error (.indexError "list index out of range") ∧
    SeqRanges.init none none none [] none = .error (.indexError "list index out of range") ∧
    verify_arg_length "list of starts, ends, widths, and names must be of the same length"
        [none, none, none, none] = .error (.indexError "list index out of range") :=
  ⟨rfl, rfl, rfl⟩

/-- C1 counter-evidence: nonempty bulk construction of `SeqRanges` never
produces entries.  With a genuine seqname such as `chr1`, the constructor
passes `seqnames[i]` into `SeqRange`'s `strand` parameter (the call swaps
`seqname` and `strand`), so the strand validation raises `ValueError`; and
even when the seqname happens to be a valid strand symbol, `SeqRange`'s
`__init__` raises `AttributeError` assigning its read-only `strand`
property. -/
theorem seqRanges_init_never_constructs :
    SeqRanges.init (some [⟨1, 5, 4, none⟩]) (some ["+"]) (some ["chr1"]) [] none
      = .error (.valueError "strand must be either: +, -, *") ∧
    SeqRanges.init (some [⟨1, 5, 4, none⟩]) (some ["+"]) (some ["+"]) [] none
      = .error (.attributeError "cannot set attribute: strand is a read-only property") :=
  ⟨rfl, rfl⟩

/-- C2 counter-evidence: `SeqRange` construction raises for every strand —
`AttributeError` for each of the three allowed symbols (the assignment
`self.strand = strand` hits the read-only `strand` property) and
`ValueError` for an invalid symbol; it never succeeds. -/
theorem seqRange_init_always_raises :
    SeqRange.init ⟨0, 5, 5, none⟩ "chr1" "+" none
      = .error (.attributeError "cannot set attribute: strand is a read-only property") ∧
    SeqRange.init ⟨0, 5, 5, none⟩ "chr1" "-" none
      = .error (.attributeError "cannot set attribute: strand is a read-only property") ∧
    SeqRange.init ⟨0, 5, 5, none⟩ "chr1" "*" none
      = .error (.attributeError "cannot set attribute: strand is a read-only property") ∧
    SeqRange.init ⟨0, 5, 5, none⟩ "chr1" "x" none
      = .error (.valueError "strand must be either: +, -, *") :=
  ⟨rfl, rfl, rfl, rfl⟩

/-- C3 counter-evidence: `SeqRange.overlaps` with equal seqnames raises
`AttributeError` reading the broken `strand` property instead of comparing
strands and intersecting the owned ranges; with differing seqnames it does
return false.  The third conjunct shows the delegation it would perform is
itself broken: `self.range.overlaps(other)` passes the `SeqRange` rather
than `other.range`, which `Range.overlaps` rejects with `ValueError`. -/
theorem seqRange_overlaps_broken :
    SeqRange.overlaps ⟨⟨0, 5, 5, none⟩, "chr1"⟩ ⟨⟨3, 8, 5, none⟩, "chr1"⟩
      = .error (.attributeError "Range object has no attribute strand") ∧
    SeqRange.overlaps ⟨⟨0, 5, 5, none⟩, "chr1"⟩ ⟨⟨3, 8, 5, none⟩, "chr2"⟩ = .ok false ∧
    Range.overlaps ⟨0, 5, 5, none⟩ (PyObj.vSeqRange ⟨⟨3, 8, 5, none⟩, "chr1"⟩)
      = .error (.valueError "overlaps() method requires another Range object") := by
  refine ⟨?_, ?_, rfl⟩ <;> simp [SeqRange.overlaps]

/-- C5 counter-evidence: with two of `start`, `end`, `width` absent (only
`end`, resp. only `width`, given) construction fails with an unguarded
`TypeError` from `end - width` on `None`, not with the invalid-argument
`ValueError` the claim requires for every more-than-one-absent case: the
guard `Counter((start, end, width))[None] > 2` only rejects all three
absent, although its own message says two values are needed. -/
theorem range_init_multi_absent_type_error :
    Range.init none (some 5) none none
      = .error (.typeError "unsupported operand type for subtraction with NoneType") ∧
    Range.init none none (some 5) none
      = .error (.typeError "unsupported operand type for subtraction with NoneType") :=
  ⟨rfl, rfl⟩

/-- C6 counter-evidence: `Range(start=3, width=4)` raises `ValueError`
instead of succeeding with `end = 7`, because under Python 2 the guard
`start > end` compares `3 > None`, which is true (`None` sorts below every
integer), so the inference `end = start + width` is unreachable.  The
mirror-image derivation with `start` absent does work, underlining that the
failure is specific to the `end`-absent path. -/
theorem range_init_end_inference_unreachable :
    Range.init (some 3) none (some 4) none
      = .error (.valueError "negative range widths not allowed (end > start and width >= 0)") ∧
    Range.init none (some 10) (some 3) none
      = .ok { start := 7, end_ := 10, width := 3, name := none } :=
  ⟨rfl, rfl⟩

/-- Binding a success value just applies the continuation. -/
theorem except_bind_ok {α β : Type} (a : α) (f : α → Except PyErr β) :
    (Except.ok a >>= f) = f a := rfl

/-- C7: a `Ranges` bulk-constructed from equal-length `starts` and `ends`
lists with `starts[i] <= ends[i]` succeeds, and its aggregate `start`,
`end` and `width` accessors return `starts`, `ends` and the pointwise
differences, in insertion order. -/
theorem ranges_roundtrip (starts ends : List Int)
    (hlen : starts.length = ends.length)
    (hle : ∀ i < starts.length, starts.getD i 0 ≤ ends.getD i 0) :
    ∃ c : Ranges, Ranges.init (some starts) (some ends) none none = .ok c ∧
      Ranges.start c = starts ∧ Ranges.end_ c = ends ∧
      Ranges.width c = List.zipWith (fun e s => e - s) ends starts := by
  refine ⟨⟨(List.range starts.length).map (fun i =>
      { start := starts.getD i 0, end_ := ends.getD i 0,
        width := ends.getD i 0 - starts.getD i 0, name := none })⟩, ?_, ?_, ?_, ?_⟩
  · have hver : verify_arg_length
        "list of starts, ends, widths, and names must be of the same length"
        [(some starts).map List.length, (some ends).map List.length,
         (none : Option (List Int)).map List.length,
         (none : Option (List String)).map List.length] = .ok starts.length := by
      show verify_arg_length _ [some starts.length, some ends.length, none, none]
          = .ok starts.length
      rw [← hlen]
      exact verify_arg_length_two_eq _ _
    have hloop : exceptMapM (fun i => do
        let widths_i ← pyIndexOpt (none : Option (List Int)) i
        let names_i ← pyIndexOpt (none : Option (List String)) i
        let starts_i ← pyIndex (some starts) i
        let ends_i ← pyIndex (some ends) i
        Range.init (some starts_i) (some ends_i) widths_i names_i)
        (List.range starts.length)
        = .ok ((List.range starts.length).map (fun i =>
            { start := starts.getD i 0, end_ := ends.getD i 0,
              width := ends.getD i 0 - starts.getD i 0, name := none })) := by
      apply exceptMapM_ok
      intro i hi
      have hi1 : i < starts.length := List.mem_range.mp hi
      have hi2 : i < ends.length := hlen ▸ hi1
      have h1 : pyIndex (some starts) i = Except.ok (starts.getD i 0) := by
        simp [pyIndex, List.getElem?_eq_getElem hi1]
      have h2 : pyIndex (some ends) i = Except.ok (ends.getD i 0) := by
        simp [pyIndex, List.getElem?_eq_getElem hi2]
      have h3 := range_init_start_end (starts.getD i 0) (ends.getD i 0) (hle i hi1)
      simp only [pyIndexOpt, h1, h2, except_bind_ok, h3]
    unfold Ranges.init
    rw [hver, except_bind_ok, hloop, except_bind_ok]
    rfl
  · show ((List.range starts.length).map _).map Range.start = starts
    rw [List.map_map]
    have hcomp : (Range.start ∘ (fun i =>
        ({ start := starts.getD i 0, end_ := ends.getD i 0,
           width := ends.getD i 0 - starts.getD i 0, name := none } : Range)))
        = fun i => starts.getD i 0 := rfl
    rw [hcomp]
    exact map_getD_range starts
  · show ((List.range starts.length).map _).map Range.end_ = ends
    rw [List.map_map]
    have hcomp : (Range.end_ ∘ (fun i =>
        ({ start := starts.getD i 0, end_ := ends.getD i 0,
           width := ends.getD i 0 - starts.getD i 0, name := none } : Range)))
        = fun i => ends.getD i 0 := rfl
    rw [hcomp, hlen]
    exact map_getD_range ends
  · show ((List.range starts.length).map _).map Range.width
        = List.zipWith (fun e s => e - s) ends starts
    rw [List.map_map]
    have hcomp : (Range.width ∘ (fun i =>
        ({ start := starts.getD i 0, end_ := ends.getD i 0,
           width := ends.getD i 0 - starts.getD i 0, name := none } : Range)))
        = fun i => ends.getD i 0 - starts.getD i 0 := rfl
    rw [hcomp]
    exact map_range_sub starts ends hlen

/-- Witness for C7 at the spec's own example: `starts=[1,2,3]`,
`ends=[4,5,6]` give aggregate accessors `[1,2,3]`, `[4,5,6]`, `[3,3,3]`. -/
theorem ranges_roundtrip_witness :
    ∃ c : Ranges, Ranges.init (some [1, 2, 3]) (some [4, 5, 6]) none none = .ok c ∧
      Ranges.start c = [1, 2, 3] ∧ Ranges.end_ c = [4, 5, 6] ∧
      Ranges.width c = List.zipWith (fun e s => e - s) [4, 5, 6] [1, 2, 3] :=
  ranges_roundtrip [1, 2, 3] [4, 5, 6] rfl (by decide)

/-- Existence of a satisfying element makes `any` and `find?` agree. -/
theorem any_eq_find?_isSome {α : Type} (p : α → Bool) :
    ∀ l : List α, l.any p = (l.find? p).isSome := by
  intro l
  induction l with
  | nil => rfl
  | cons a tl ih => cases h : p a <;> simp [List.find?_cons, h, ih]

/-- Dictionary update gives lookup priority to the updating dictionary and
falls back to the updated one. -/
theorem dictGet_dictUpdate (d o : List (String × Int)) (k : String) :
    dictGet (dictUpdate d o) k =
      match dictGet o k with
      | some v => some v
      | none => dictGet d k := by
  unfold dictUpdate dictGet
  rw [List.find?_append]
  cases ho : o.find? (fun kv => kv.1 == k) with
  | none =>
    have hfind : (d.filter (fun kv => !(o.any fun kv2 => kv2.1 == kv.1))).find?
        (fun kv => kv.1 == k) = d.find? (fun kv => kv.1 == k) := by
      rw [List.find?_filter]
      congr 1
      funext x
      cases hx : (x.1 == k) with
      | false => simp [hx]
      | true =>
        have hxk : x.1 = k := eq_of_beq hx
        have hany : (o.any fun kv2 => kv2.1 == x.1) = false := by
          rw [hxk, any_eq_find?_isSome, ho]
          rfl
        simp [hx, hany]
    rw [hfind]
    cases d.find? (fun kv => kv.1 == k) <;> rfl
  | some kv =>
    have hp := List.find?_some ho
    have hkvk : kv.1 = k := eq_of_beq (by simpa using hp)
    have hmem : kv ∈ o := List.mem_of_find?_eq_some ho
    have hfind : (d.filter (fun kv => !(o.any fun kv2 => kv2.1 == kv.1))).find?
        (fun kv => kv.1 == k) = none := by
      rw [List.find?_filter, List.find?_eq_none]
      intro x _ hx
      have hxk : x.1 = k := eq_of_beq (by
        revert hx
        cases hb : (x.1 == k) <;> simp [hb])
      have hany : (o.any fun kv2 => kv2.1 == x.1) = true := by
        rw [any_eq_find?_isSome, hxk, ho]
        rfl
      revert hx
      simp [hany]
    rw [hfind]
    rfl

/-- C8: appending a `SeqRanges` `t` to a `SeqRanges` `s` yields the two
backing lists concatenated (length is the sum of the prior lengths) and a
`seqlengths` mapping defined on the union of both key sets, in which `t`'s
value wins on every key `t` defines and `s`'s value survives on every
other key. -/
theorem seqRanges_append_merge (s t u : SeqRanges)
    (h : SeqRanges.append s (PyObj.vSeqRanges t) = .ok u) :
    u._ranges.length = s._ranges.length + t._ranges.length ∧
    (∀ k, (dictGet u.seqlengths k).isSome
        ↔ ((dictGet s.seqlengths k).isSome ∨ (dictGet t.seqlengths k).isSome)) ∧
    (∀ k v, dictGet t.seqlengths k = some v → dictGet u.seqlengths k = some v) ∧
    (∀ k, dictGet t.seqlengths k = none → dictGet u.seqlengths k = dictGet s.seqlengths k) := by
  have hu : u = ⟨s._ranges ++ t._ranges, dictUpdate s.seqlengths t.seqlengths⟩ := by
    have heq : SeqRanges.append s (PyObj.vSeqRanges t)
        = .ok ⟨s._ranges ++ t._ranges, dictUpdate s.seqlengths t.seqlengths⟩ := rfl
    rw [heq] at h
    exact (Except.ok.inj h).symm
  subst hu
  refine ⟨by simp, ?_, ?_, ?_⟩
  · intro k
    rw [show dictGet (⟨s._ranges ++ t._ranges,
        dictUpdate s.seqlengths t.seqlengths⟩ : SeqRanges).seqlengths k
      = dictGet (dictUpdate s.seqlengths t.seqlengths) k from rfl]
    rw [dictGet_dictUpdate]
    cases hget : dictGet t.seqlengths k <;> simp [hget]
  · intro k v hv
    rw [show dictGet (⟨s._ranges ++ t._ranges,
        dictUpdate s.seqlengths t.seqlengths⟩ : SeqRanges).seqlengths k
      = dictGet (dictUpdate s.seqlengths t.seqlengths) k from rfl]
    rw [dictGet_dictUpdate, hv]
  · intro k hv
    rw [show dictGet (⟨s._ranges ++ t._ranges,
        dictUpdate s.seqlengths t.seqlengths⟩ : SeqRanges).seqlengths k
      = dictGet (dictUpdate s.seqlengths t.seqlengths) k from rfl]
    rw [dictGet_dictUpdate, hv]

/-- Witness for C8: appending a one-entry collection to an empty one sums
the lengths, the conflicting key `chr2` takes the appended collection's
value, and the unconflicting key `chr1` keeps the original value. -/
theorem seqRanges_append_merge_witness :
    SeqRanges.append ⟨[], [("chr1", 5), ("chr2", 7)]⟩
        (PyObj.vSeqRanges ⟨[⟨⟨0, 5, 5, none⟩, "chr1"⟩], [("chr2", 10), ("chr3", 1)]⟩)
      = .ok ⟨[⟨⟨0, 5, 5, none⟩, "chr1"⟩], [("chr1", 5), ("chr2", 10), ("chr3", 1)]⟩ ∧
    ([⟨⟨0, 5, 5, none⟩, "chr1"⟩] : List SeqRange).length = ([] : List SeqRange).length + 1 ∧
    dictGet [("chr1", 5), ("chr2", 10), ("chr3", 1)] "chr2" = some 10 ∧
    dictGet [("chr1", 5), ("chr2", 10), ("chr3", 1)] "chr1" = some 5 := by
  have h := seqRanges_append_merge ⟨[], [("chr1", 5), ("chr2", 7)]⟩
    ⟨[⟨⟨0, 5, 5, none⟩, "chr1"⟩], [("chr2", 10), ("chr3", 1)]⟩
    ⟨[⟨⟨0, 5, 5, none⟩, "chr1"⟩], [("chr1", 5), ("chr2", 10), ("chr3", 1)]⟩ rfl
  exact ⟨rfl, h.1, h.2.2.1 "chr2" 10 rfl, h.2.2.2 "chr1" rfl⟩
